import Mathlib

/-!
Shallow embedding of `hlsvod/manager.go` from pulsejet/go-transcode.

Machine floats (`float64` timestamps and durations) are modelled as exact
rationals; Go's `%.*f` formatting is modelled as decimal rounding of the
rational to the requested precision.  Go maps become association lists,
channels become a three-state value (nil / open / closed), and the one
fallible channel operation (`close`) returns `Except`, with `.error`
standing for a Go runtime panic.
-/

/-- Left-pad a decimal digit string with zeros to width `w`
(the behaviour of Go's `%0*d` for non-negative arguments). -/
def padLeftZeros (w : Nat) (s : String) : String :=
  String.mk (List.replicate (w - s.length) '0') ++ s

/-- Go's `%.*f` on the rational model of a float: round `q` to `prec`
decimal places (half rounds up: the scaled value `q * 10 ^ prec` becomes
`⌊q * 10 ^ prec + 1/2⌋`, computed here on numerator and denominator by
integer floor division) and print with exactly `prec` fractional digits. -/
def fmtF (prec : Nat) (q : ℚ) : String :=
  let n : ℤ := Int.fdiv (2 * q.num * (10 : ℤ) ^ prec + (q.den : ℤ)) (2 * (q.den : ℤ))
  let sign := if n < 0 then "-" else ""
  let a := n.natAbs
  sign ++ Nat.repr (a / 10 ^ prec) ++ "." ++ padLeftZeros prec (Nat.repr (a % 10 ^ prec))

/-- The configuration fields of `hlsvod.Config` consumed by `manager.go`. -/
structure Config where
  MediaPath : String
  FFprobeBinary : String
  TranscodeDir : String
  SegmentPrefix : String
  Cache : Bool
  CacheDir : String
deriving DecidableEq

/-- The video stream part of the probe result used by `manager.go`:
`PktPtsTime []float64`, a nil-able slice of keyframe timestamps
(`none` models the nil slice that triggers the keyframe probe). -/
structure ProbeVideoData where
  PktPtsTime : Option (List ℚ)
deriving DecidableEq

/-- The probe result `ProbeMediaData` as used by `manager.go`:
a duration, an optional audio descriptor and an optional video descriptor. -/
structure ProbeMediaData where
  duration : ℚ
  audio : Option Unit
  video : Option ProbeVideoData
deriving DecidableEq

/-- A Go channel of `struct{}` as used for signalling: nil, open or closed. -/
inductive GoChan where
  | nilChan
  | opened
  | closed
deriving DecidableEq

/-- `close` on a Go channel: succeeds only on an open channel; closing a
closed or nil channel is a runtime panic, modelled as `.error`. -/
def closeChan : GoChan → Except String GoChan
  | .opened => .ok .closed
  | .closed => .error "close of closed channel"
  | .nilChan => .error "close of nil channel"

/-- The mutable state of `hlsvod.ManagerCtx`.  `readyChangeClosed` records
whether the one-shot `onReadyChange` channel has been closed (the readiness
event fired); `ctxCancelled` records that `cancel()` ran. -/
structure ManagerCtx where
  config : Config
  segmentDuration : ℚ
  ready : Bool
  readyChangeClosed : Bool
  metadata : Option ProbeMediaData
  playlist : String
  segments : List (Nat × Bool)
  segmentsTimes : List ℚ
  shutdown : GoChan
  ctxCancelled : Bool
deriving DecidableEq

/-- `hlsvod.New`: fresh manager with the nominal segment duration 4.75 and
segment suffix pattern `-%05d.ts`; all other fields at their Go zero value. -/
def New (config : Config) : ManagerCtx :=
  { config := config
    segmentDuration := mkRat 19 4
    ready := false
    readyChangeClosed := false
    metadata := none
    playlist := ""
    segments := []
    segmentsTimes := []
    shutdown := .nilChan
    ctxCancelled := false }

/-- `getSegmentName`: the configured prefix followed by
`fmt.Sprintf("-%05d.ts", index)` (the `segmentSuffix` set in `New`). -/
def getSegmentName (pfx : String) (index : Nat) : String :=
  pfx ++ "-" ++ padLeftZeros 5 (Nat.repr index) ++ ".ts"

/-- The consecutive differences `segmentsTimes[i] - segmentsTimes[i-1]`
for `i = 1 .. len-1`, in order: the declared segment durations. -/
def segmentDurations (ts : List ℚ) : List ℚ :=
  (ts.zip ts.tail).map fun p => p.2 - p.1

/-- One `#EXTINF` line of the playlist: `fmt.Sprintf("#EXTINF:%.3f, no desc", d)`. -/
def extinfLine (d : ℚ) : String :=
  "#EXTINF:" ++ fmtF 3 d ++ ", no desc"

/-- The loop body of `getPlaylist`: for each duration, an `#EXTINF` line
followed by the segment name, with indices counting from `i`. -/
def segmentLinesAux (pfx : String) (i : Nat) : List ℚ → List String
  | [] => []
  | d :: ds => extinfLine d :: getSegmentName pfx i :: segmentLinesAux pfx (i + 1) ds

/-- The segment portion of the playlist: the `for i := 1; i < len; i++` loop
of `getPlaylist`, emitting `#EXTINF:<ts[i]-ts[i-1]>` and the name of segment `i`. -/
def segmentLines (pfx : String) (ts : List ℚ) : List String :=
  segmentLinesAux pfx 1 (segmentDurations ts)

/-- All lines of the playlist built by `getPlaylist`, before joining:
the five header lines, the per-segment lines, and `#EXT-X-ENDLIST`. -/
def playlistLines (pfx : String) (dur : ℚ) (ts : List ℚ) : List String :=
  (["#EXTM3U",
    "#EXT-X-VERSION:4",
    "#EXT-X-PLAYLIST-TYPE:VOD",
    "#EXT-X-MEDIA-SEQUENCE:0",
    "#EXT-X-TARGETDURATION:" ++ fmtF 2 dur]
   ++ segmentLines pfx ts)
  ++ ["#EXT-X-ENDLIST"]

/-- `getPlaylist`: the playlist lines joined with `"\n"`. -/
def getPlaylist (m : ManagerCtx) : String :=
  String.intercalate "\n" (playlistLines m.config.SegmentPrefix m.segmentDuration m.segmentsTimes)

/-- The transcode matrix built by the manager's initialization step:
keys `1 .. len(segmentsTimes)-1`, each mapped to `false` (not transcoded). -/
def initSegments (ts : List ℚ) : List (Nat × Bool) :=
  (List.range' 1 (ts.length - 1)).map fun i => (i, false)

/-- The manager's initialization step (Go `initialize`): take the keyframe
timestamps as segment boundaries, generate the playlist, and build the
segment availability table.  Go dereferences `metadata.Video` without a nil
check (a nil pointer would panic); the absent cases default to `[]` here and
are not exercised by any claim. -/
def initializeManager (m : ManagerCtx) : ManagerCtx :=
  let ts := ((m.metadata.bind ProbeMediaData.video).bind ProbeVideoData.PktPtsTime).getD []
  let m1 := { m with segmentsTimes := ts }
  { m1 with playlist := getPlaylist m1, segments := initSegments ts }

/-- `Start`, synchronous part: error if already ready, otherwise reset the
shutdown channel, the ready flag and the `onReadyChange` channel, and launch
the initialization goroutine (modelled separately as ` initTask`). -/
def Start (m : ManagerCtx) : Except String ManagerCtx :=
  if m.ready then .error "already running"
  else .ok { m with shutdown := .opened, ready := false, readyChangeClosed := false }

/-- The body of the goroutine launched by `Start`, given the outcome of
`loadMetadata`: on error it returns early (state untouched); on success it
stores the metadata, runs the initialization step, sets `ready` and closes
`onReadyChange`. -/
def initTask (m : ManagerCtx) (loadResult : Except String ProbeMediaData) : ManagerCtx :=
  match loadResult with
  | .error _ => m
  | .ok md =>
    let m1 := initializeManager { m with metadata := some md }
    { m1 with ready := true, readyChangeClosed := true }

/-- `Stop`: cancel the context, close the shutdown channel and clear `ready`.
There is no already-stopped guard: a second `close` of the shutdown channel
is a Go runtime panic, surfaced as `.error`. -/
def Stop (m : ManagerCtx) : Except String ManagerCtx :=
  match closeChan m.shutdown with
  | .ok c => .ok { m with ctxCancelled := true, shutdown := c, ready := false }
  | .error e => .error e

/-- `fetchMetadata`, with the external probes passed as their outcomes:
probe the media; when there is a video stream whose `PktPtsTime` is nil,
also probe the video for keyframes and merge the timestamps in. -/
def fetchMetadata (probeMedia : Except String ProbeMediaData)
    (probeVideo : Except String (List ℚ)) : Except String ProbeMediaData :=
  match probeMedia with
  | .error e => .error ("unable probe media for metadata: " ++ e)
  | .ok md =>
    match md.video with
    | some v =>
      if v.PktPtsTime.isNone then
        match probeVideo with
        | .error e => .error ("unable probe video for keyframes: " ++ e)
        | .ok pts => .ok { md with video := some { v with PktPtsTime := some pts } }
      else .ok md
    | none => .ok md

/-- Outcome of the cache read performed by `getCacheData`: the entry is
absent (`os.ErrNotExist`), or the read failed for another reason. -/
inductive CacheReadErr where
  | notExist
  | readFailed (msg : String)
deriving DecidableEq

/-- Which cache backend `loadMetadata` writes the fresh probe result to. -/
inductive CacheTarget where
  | globalCache
  | localCache
deriving DecidableEq

deriving instance DecidableEq for Except

/-- What a `loadMetadata` run produced: its returned result, the cache
write-back it attempted (backend chosen and serialized bytes handed to the
save call, regardless of whether that call succeeded), and whether it
logged a cache error on the way (`log.Err(...)` on a corrupt entry or
failed read). -/
structure LoadOutcome where
  result : Except String ProbeMediaData
  cacheWrite : Option (CacheTarget × List Nat)
  loggedCacheError : Bool
deriving DecidableEq

/-- The tail of `loadMetadata` after a cache miss or corrupt entry: fetch
fresh metadata, marshal it (`json.Marshal`, whose error is returned), and
save it to the global backend when a shared cache directory is configured,
otherwise to the local backend — the save call's error is `loadMetadata`'s
own return value, so a failed write-back fails the whole load even though
the probe succeeded. -/
def refetchAndCache (cfg : Config) (marshal : ProbeMediaData → Except String (List Nat))
    (save : CacheTarget → List Nat → Except String Unit)
    (probeMedia : Except String ProbeMediaData) (probeVideo : Except String (List ℚ))
    (logged : Bool) : LoadOutcome :=
  match fetchMetadata probeMedia probeVideo with
  | .error e => { result := .error e, cacheWrite := none, loggedCacheError := logged }
  | .ok md =>
    match marshal md with
    | .error e => { result := .error e, cacheWrite := none, loggedCacheError := logged }
    | .ok data =>
      let target : CacheTarget := if cfg.CacheDir ≠ "" then .globalCache else .localCache
      match save target data with
      | .ok _ => { result := .ok md, cacheWrite := some (target, data), loggedCacheError := logged }
      | .error e => { result := .error e, cacheWrite := some (target, data), loggedCacheError := logged }

/-- `loadMetadata`, with the external cache read, (de)serialization, cache
save and probes passed as oracles: bypass the cache when disabled; on a
cache hit that unmarshals, return it; on a corrupt entry (logged) or a read
error (logged unless `os.ErrNotExist`), fall through to a fresh probe and
write the serialized result back, returning the write-back's error if it
fails. -/
def loadMetadata (cfg : Config) (cacheRead : Except CacheReadErr (List Nat))
    (unmarshal : List Nat → Option ProbeMediaData)
    (marshal : ProbeMediaData → Except String (List Nat))
    (save : CacheTarget → List Nat → Except String Unit)
    (probeMedia : Except String ProbeMediaData)
    (probeVideo : Except String (List ℚ)) : LoadOutcome :=
  if !cfg.Cache then
    { result := fetchMetadata probeMedia probeVideo, cacheWrite := none, loggedCacheError := false }
  else
    match cacheRead with
    | .ok data =>
      match unmarshal data with
      | some md => { result := .ok md, cacheWrite := none, loggedCacheError := false }
      | none => refetchAndCache cfg marshal save probeMedia probeVideo true
    | .error .notExist => refetchAndCache cfg marshal save probeMedia probeVideo false
    | .error (.readFailed _) => refetchAndCache cfg marshal save probeMedia probeVideo true

/-- How the wait of a not-ready handler ends: the `onReadyChange` channel is
closed, the shutdown channel is closed, or the 24-second timer fires first. -/
inductive GateOutcome where
  | readyChange
  | shutdownFired
  | timedOut
deriving DecidableEq

/-- An HTTP response of the playlist endpoint: status code and body. -/
structure PlaylistResponse where
  status : Nat
  body : String
deriving DecidableEq

/-- `ServePlaylist`: when not ready, wait on the select; `m1` is the manager
state observed after the wait ends (the Go handler re-reads `m.ready` and
`m.playlist` then).  The not-available branches write status 500
(`http.StatusInternalServerError`) and the timer branch 504. -/
def ServePlaylist (m0 : ManagerCtx) (g : GateOutcome) (m1 : ManagerCtx) : PlaylistResponse :=
  if m0.ready then { status := 200, body := m0.playlist }
  else
    match g with
    | .readyChange =>
      if !m1.ready then { status := 500, body := "504 playlist not available" }
      else { status := 200, body := m1.playlist }
    | .shutdownFired => { status := 500, body := "500 playlist not available" }
    | .timedOut => { status := 504, body := "504 playlist timeout" }

/-- An HTTP response of the segment endpoint.  `servedPath` is the file
handed to `http.ServeFile`; `invokedExecutor` records whether a transcode
process was started for the request (the Go code contains none, only a
TODO, so every branch sets it to `false`). -/
structure MediaResponse where
  status : Nat
  body : String
  servedPath : Option String
  invokedExecutor : Bool
deriving DecidableEq

/-- `ServeMedia`: the requested index is hardcoded to 0 (a TODO in place of
URL parsing); look it up in the segment table, 404 when absent; otherwise
serve the file at `TranscodeDir/<segment name>` when it exists on disk
(`fileExists` is the `os.Stat` outcome), 404 when it does not.  No readiness
wait and no transcode invocation occur anywhere in this handler. -/
def ServeMedia (m : ManagerCtx) (fileExists : Bool) : MediaResponse :=
  let index := 0
  match m.segments.lookup index with
  | none => { status := 404, body := "404 index not found", servedPath := none, invokedExecutor := false }
  | some _available =>
    let segmentName := getSegmentName m.config.SegmentPrefix index
    let segmentPath := m.config.TranscodeDir ++ "/" ++ segmentName
    if fileExists then
      { status := 200, body := "", servedPath := some segmentPath, invokedExecutor := false }
    else
      { status := 404, body := "404 media not found", servedPath := none, invokedExecutor := false }

/-- The per-segment playlist lines exactly as the spec's format section
words them, parameterized by how a segment URI is written: an
`#EXTINF:<duration, 3 decimals>, no desc` line, then the URI of segment `i`,
in ascending index order. -/
def specSegmentLinesAux (uri : Nat → String) (i : Nat) : List ℚ → List String
  | [] => []
  | d :: ds => ("#EXTINF:" ++ fmtF 3 d ++ ", no desc") :: uri i :: specSegmentLinesAux uri (i + 1) ds

/-- The playlist text as the spec's format section words it, parameterized
by the segment-URI scheme: the five header lines (target duration is the
nominal constant with 2 decimals), the per-segment lines, and a final
`#EXT-X-ENDLIST`, joined by newlines. -/
def specPlaylistWith (uri : Nat → String) (nominal : ℚ) (ts : List ℚ) : String :=
  String.intercalate "\n"
    ((["#EXTM3U",
       "#EXT-X-VERSION:4",
       "#EXT-X-PLAYLIST-TYPE:VOD",
       "#EXT-X-MEDIA-SEQUENCE:0",
       "#EXT-X-TARGETDURATION:" ++ fmtF 2 nominal]
      ++ specSegmentLinesAux uri 1 (segmentDurations ts))
     ++ ["#EXT-X-ENDLIST"])

/-- The playlist text with the segment URI exactly as the spec writes it:
the configured prefix, the zero-padded 5-digit index, then `.ts`. -/
def specPlaylistText (pfx : String) (nominal : ℚ) (ts : List ℚ) : String :=
  specPlaylistWith (fun i => pfx ++ padLeftZeros 5 (Nat.repr i) ++ ".ts") nominal ts

/-- The playlist text with the segment URI as the code builds it: the
configured prefix, a hyphen, the zero-padded 5-digit index, then `.ts`. -/
def specPlaylistTextHyphen (pfx : String) (nominal : ℚ) (ts : List ℚ) : String :=
  specPlaylistWith (fun i => pfx ++ "-" ++ padLeftZeros 5 (Nat.repr i) ++ ".ts") nominal ts

/-- The segment tables a manager can ever hold: the Go zero value (a nil
map, in which every lookup misses) before initialization completes, or the
table the initialization step builds; no other code writes `m.segments`. -/
def ReachableSegmentTable (tbl : List (Nat × Bool)) : Prop :=
  tbl = [] ∨ ∃ ts : List ℚ, tbl = initSegments ts

/-- A configuration used for concrete evaluations. -/
def cfgP : Config :=
  { MediaPath := "/media/video.mp4"
    FFprobeBinary := "ffprobe"
    TranscodeDir := "/tmp/transcode"
    SegmentPrefix := "p"
    Cache := false
    CacheDir := "" }

/-- A manager with boundary times `[0, 5]` and prefix `"p"`, for concrete
evaluation of the playlist text. -/
def stC2 : ManagerCtx := { New cfgP with segmentsTimes := [0, 5] }

/-- The state `Start` hands to its goroutine starting from a fresh manager:
not ready, readiness event not fired, shutdown channel open. -/
def stNotReady : ManagerCtx := { New cfgP with shutdown := .opened }

/-- A concrete probe result whose fast probe already carries keyframes. -/
def mdW : ProbeMediaData :=
  { duration := 10, audio := none, video := some { PktPtsTime := some [0, 5, 10] } }

/-- `cfgP` with caching enabled (and no shared cache directory). -/
def cfgC : Config := { cfgP with Cache := true }

/-- The probe result of the spec's end-to-end scenario: keyframe
timestamps `[0, 4.8, 9.6, 14.4]`. -/
def md10 : ProbeMediaData :=
  { duration := mkRat 72 5, audio := none
    video := some { PktPtsTime := some [0, mkRat 24 5, mkRat 48 5, mkRat 72 5] } }

/-- The manager after `Start` and a successful initialization on `md10`:
segment table `{1, 2, 3}`, none available. -/
def st10 : ManagerCtx := initTask stNotReady (.ok md10)

/-- Two managers equal on prefix, nominal duration and boundary times but
different elsewhere, for the determinism witness. -/
def stA : ManagerCtx := { New cfgP with segmentsTimes := [0, 2], ready := true, playlist := "stale" }

/-- See ` stA`. -/
def stB : ManagerCtx := { New cfgP with segmentsTimes := [0, 2], metadata := some mdW }

example : getSegmentName "p" 1 = "p-00001.ts" := by decide
example : fmtF 2 (mkRat 19 4) = "4.75" := by decide
example : fmtF 3 (5 : ℚ) = "5.000" := by decide
example : fmtF 3 (mkRat 24 5) = "4.800" := by decide
example : segmentDurations [0, 2, 5] = [2, 3] := by norm_num [segmentDurations]

theorem segmentDurations_cons₂ (t u : ℚ) (rs : List ℚ) :
    segmentDurations (t :: u :: rs) = (u - t) :: segmentDurations (u :: rs) := rfl

theorem segmentDurations_length (ts : List ℚ) :
    (segmentDurations ts).length = ts.length - 1 := by
  simp [segmentDurations]

theorem segmentDurations_getElem? (ts : List ℚ) :
    ∀ (i : Nat) (a b : ℚ), ts[i]? = some a → ts[i + 1]? = some b →
      (segmentDurations ts)[i]? = some (b - a) := by
  induction ts with
  | nil => intro i a b h1 _; simp at h1
  | cons t rest ih =>
    intro i a b h1 h2
    cases rest with
    | nil =>
      cases i with
      | zero => simp at h2
      | succ j => simp at h1
    | cons u rs =>
      cases i with
      | zero =>
        simp at h1 h2
        rw [segmentDurations_cons₂]
        simp [h1, h2]
      | succ j =>
        rw [segmentDurations_cons₂]
        simpa using ih j a b (by simpa using h1) (by simpa using h2)

theorem segmentDurations_sum (rest : List ℚ) :
    ∀ t : ℚ, (segmentDurations (t :: rest)).sum = rest.getLastD t - t := by
  induction rest with
  | nil => intro t; simp [segmentDurations]
  | cons u rs ih =>
    intro t
    rw [segmentDurations_cons₂, List.sum_cons, ih u, List.getLastD_cons]
    ring

theorem getLast?_eq_getLastD (t : ℚ) (rest : List ℚ) :
    (t :: rest).getLast? = some (rest.getLastD t) := by
  induction rest generalizing t with
  | nil => rfl
  | cons u rs ih => rw [List.getLastD_cons, List.getLast?_cons_cons, ih u]

theorem segmentLinesAux_length (pfx : String) (ds : List ℚ) :
    ∀ i : Nat, (segmentLinesAux pfx i ds).length = 2 * ds.length := by
  induction ds with
  | nil => intro i; rfl
  | cons d ds ih =>
    intro i
    simp only [segmentLinesAux, List.length_cons, ih (i + 1), List.length_cons]
    omega

theorem segmentLinesAux_getElem? (pfx : String) (ds : List ℚ) :
    ∀ i k : Nat, (segmentLinesAux pfx i ds)[2 * k]? = ds[k]?.map extinfLine := by
  induction ds with
  | nil => intro i k; simp [segmentLinesAux]
  | cons d ds ih =>
    intro i k
    cases k with
    | zero => simp [segmentLinesAux]
    | succ j =>
      have h2 : 2 * (j + 1) = (2 * j) + 1 + 1 := by omega
      simp only [segmentLinesAux, h2, List.getElem?_cons_succ]
      exact ih (i + 1) j

theorem playlistLines_length (pfx : String) (dur : ℚ) (ts : List ℚ) :
    (playlistLines pfx dur ts).length = 6 + 2 * (segmentDurations ts).length := by
  simp only [playlistLines, segmentLines, List.length_append, List.length_cons,
    List.length_nil, segmentLinesAux_length]
  omega

theorem playlistLines_getElem? (pfx : String) (dur : ℚ) (ts : List ℚ) (i : Nat) (d : ℚ)
    (h : (segmentDurations ts)[i]? = some d) :
    (playlistLines pfx dur ts)[5 + 2 * i]? = some (extinfLine d) := by
  have hi : i < (segmentDurations ts).length := by
    by_contra hc
    push_neg at hc
    rw [List.getElem?_eq_none hc] at h
    exact Option.noConfusion h
  have hlen : 2 * i < (segmentLines pfx ts).length := by
    rw [segmentLines, segmentLinesAux_length]
    omega
  rw [playlistLines, List.getElem?_append_left (by simp; omega),
    List.getElem?_append_right (by simp)]
  simpa [segmentLines, segmentLinesAux_getElem?] using congrArg (Option.map extinfLine) h

theorem segmentLinesAux_eq_spec (pfx : String) (ds : List ℚ) :
    ∀ i : Nat, segmentLinesAux pfx i ds =
      specSegmentLinesAux (fun j => pfx ++ "-" ++ padLeftZeros 5 (Nat.repr j) ++ ".ts") i ds := by
  induction ds with
  | nil => intro i; rfl
  | cons d ds ih =>
    intro i
    simp only [segmentLinesAux, specSegmentLinesAux, extinfLine, getSegmentName, ih (i + 1)]

theorem lookup_zero_range' :
    ∀ n k : Nat, 1 ≤ k → (((List.range' k n).map fun i => (i, false)).lookup 0) = none := by
  intro n
  induction n with
  | zero => intro k _; rfl
  | succ m ih =>
    intro k hk
    have hne : (0 == k) = false := by
      simp only [beq_eq_false_iff_ne]
      omega
    simp only [List.range'_succ, List.map_cons, List.lookup_cons, hne]
    exact ih (k + 1) (by omega)

theorem lookup_zero_initSegments (ts : List ℚ) :
    (initSegments ts).lookup 0 = none := by
  rw [initSegments]
  exact lookup_zero_range' (ts.length - 1) 1 (by omega)

/-- C1: for a manager whose video keyframe timestamps are a strictly
increasing sequence starting at 0, the playlist built at initialization has
exactly `len(timestamps) - 1` `#EXTINF` entries — one at every line position
`5 + 2*i` of the generated lines, and nowhere else by the line count — the
`i`-th entry declaring duration `timestamps[i+1] - timestamps[i]`, and the
declared durations sum to the last timestamp. -/
theorem c1_playlist_segment_durations (pfx : String) (dur : ℚ) (ts : List ℚ)
    (h0 : ts.head? = some 0) (hmono : ts.Chain' (· < ·)) :
    (segmentDurations ts).length = ts.length - 1 ∧
    (∀ (i : Nat) (a b : ℚ), ts[i]? = some a → ts[i + 1]? = some b →
      (segmentDurations ts)[i]? = some (b - a)) ∧
    (∀ tD : ℚ, ts.getLast? = some tD → (segmentDurations ts).sum = tD) ∧
    (playlistLines pfx dur ts).length = 6 + 2 * (segmentDurations ts).length ∧
    (∀ (i : Nat) (d : ℚ), (segmentDurations ts)[i]? = some d →
      (playlistLines pfx dur ts)[5 + 2 * i]? = some (extinfLine d)) := by
  refine ⟨segmentDurations_length ts, segmentDurations_getElem? ts, ?_,
    playlistLines_length pfx dur ts, fun i d h => playlistLines_getElem? pfx dur ts i d h⟩
  intro tD hlast
  cases ts with
  | nil => simp at h0
  | cons t rest =>
    simp only [List.head?_cons, Option.some.injEq] at h0
    subst h0
    rw [getLast?_eq_getLastD, Option.some.injEq] at hlast
    rw [segmentDurations_sum, hlast]
    ring

/-- Witness for C1 at timestamps `[0, 2, 5]`. -/
theorem c1_witness :
    ([0, 2, 5] : List ℚ).head? = some 0 ∧
    ([0, 2, 5] : List ℚ).Chain' (· < ·) ∧
    (segmentDurations [0, 2, 5]).sum = 5 := by
  refine ⟨by decide, by norm_num [List.chain'_cons], ?_⟩
  exact (c1_playlist_segment_durations "p" (mkRat 19 4) [0, 2, 5]
    (by decide) (by norm_num [List.chain'_cons])).2.2.1 5 (by decide)

/-- C2 counterexample: on boundary times `[0, 5]` with prefix `"p"` and the
nominal duration 4.75, the playlist the code generates differs from the
spec's bit-exact text, whose segment URI is the prefix directly followed by
the zero-padded index — the code inserts a hyphen (`p-00001.ts`). -/
theorem c2_counterexample :
    getPlaylist stC2 ≠ specPlaylistText "p" (mkRat 19 4) [0, 5] := by
  have hd : segmentDurations [0, 5] = [5] := by norm_num [segmentDurations]
  have h1 : getPlaylist stC2 =
      String.intercalate "\n" (playlistLines "p" (mkRat 19 4) [0, 5]) := rfl
  rw [h1, playlistLines, segmentLines, hd, specPlaylistText, specPlaylistWith, hd]
  decide

/-- C2 amended: the generated playlist is bit-exact per the spec's line
layout — `#EXTM3U`, `#EXT-X-VERSION:4`, `#EXT-X-PLAYLIST-TYPE:VOD`,
`#EXT-X-MEDIA-SEQUENCE:0`, `#EXT-X-TARGETDURATION:` with the fixed nominal
constant at 2 decimals, then per segment in ascending order an
`#EXTINF:<duration, 3 decimals>, no desc` line and the segment URI, ending
with `#EXT-X-ENDLIST` — with the segment URI being the configured prefix,
a hyphen, the zero-padded 5-digit index, and `.ts`. -/
theorem c2_playlist_format (m : ManagerCtx) :
    getPlaylist m = specPlaylistTextHyphen m.config.SegmentPrefix m.segmentDuration m.segmentsTimes := by
  rw [getPlaylist, specPlaylistTextHyphen, specPlaylistWith, playlistLines, segmentLines,
    segmentLinesAux_eq_spec]

/-- C3: in every reachable manager state — segment table nil before
initialization or `{1..N} ↦ false` after it — `ServeMedia` responds
404 "index not found": the hardcoded index 0 is never a key of the table,
so the lookup fails and neither the transcode path nor the file-serving
path is reachable. -/
theorem c3_ServeMedia_always_404 (m : ManagerCtx) (fe : Bool)
    (h : ReachableSegmentTable m.segments) :
    ServeMedia m fe =
      { status := 404, body := "404 index not found", servedPath := none,
        invokedExecutor := false } := by
  have hl : m.segments.lookup 0 = none := by
    rcases h with h | ⟨ts, h⟩
    · rw [h]; rfl
    · rw [h]; exact lookup_zero_initSegments ts
  simp only [ServeMedia, hl]

/-- Witness for C3 on a freshly created manager (nil segment table). -/
theorem c3_witness :
    ReachableSegmentTable (New cfgP).segments ∧
    ServeMedia (New cfgP) true =
      { status := 404, body := "404 index not found", servedPath := none,
        invokedExecutor := false } :=
  ⟨Or.inl rfl, c3_ServeMedia_always_404 (New cfgP) true (Or.inl rfl)⟩

/-- C4 (code bug): `Stop` has no already-stopped guard — after `Start` and
one `Stop`, a second `Stop` reaches `close(m.shutdown)` on the already
closed channel and panics, contradicting the spec's required idempotence. -/
theorem c4_double_stop_panics :
    ((Start (New cfgP)).bind fun m1 => (Stop m1).bind fun m2 => Stop m2) =
      .error "close of closed channel" := rfl

/-- C5 (code bug): in the not-ready state `Start` leaves behind,
`ServeMedia` does not wait on any gate outcome: it immediately consults the
shared segment table and answers 404, and its answer depends on that shared
state (changing the table while still not ready changes the response), so
it reads shared state while the manager is not ready. -/
theorem c5_ServeMedia_skips_readiness_gate :
    Start (New cfgP) = .ok stNotReady ∧
    stNotReady.ready = false ∧
    ServeMedia stNotReady true =
      { status := 404, body := "404 index not found", servedPath := none,
        invokedExecutor := false } ∧
    ServeMedia { stNotReady with segments := [(0, true)] } true ≠
      ServeMedia stNotReady true := by
  refine ⟨rfl, rfl, rfl, ?_⟩
  decide

/-- C6: when the metadata load of the initialization goroutine fails, the
goroutine returns early: the manager state is exactly the one `Start` set
up, with `ready` still false and the readiness event not fired. -/
theorem c6_init_failure_not_ready (m m' : ManagerCtx) (e : String)
    (hstart : Start m = .ok m') :
    (initTask m' (.error e)).ready = false ∧
    (initTask m' (.error e)).readyChangeClosed = false := by
  rw [Start] at hstart
  by_cases h : m.ready
  · rw [if_pos h] at hstart
    exact absurd hstart (by simp)
  · rw [if_neg h] at hstart
    have hm : { m with shutdown := .opened, ready := false, readyChangeClosed := false } = m' :=
      Except.ok.inj hstart
    subst hm
    exact ⟨rfl, rfl⟩

/-- Witness for C6: a fresh manager, started, whose probe fails. -/
theorem c6_witness :
    ∃ m' : ManagerCtx, Start (New cfgP) = .ok m' ∧
      (initTask m' (.error "unable probe media for metadata: exit 1")).ready = false ∧
      (initTask m' (.error "unable probe media for metadata: exit 1")).readyChangeClosed = false := by
  refine ⟨{ New cfgP with shutdown := .opened, ready := false, readyChangeClosed := false },
    rfl, ?_, ?_⟩
  · exact (c6_init_failure_not_ready (New cfgP) _ "unable probe media for metadata: exit 1" rfl).1
  · exact (c6_init_failure_not_ready (New cfgP) _ "unable probe media for metadata: exit 1" rfl).2

/-- C7 counterexample: caching enabled, a corrupt cache entry, a succeeding
probe — yet `loadMetadata` does not succeed: the cache write-back fails and
its error becomes `loadMetadata`'s result (manager.go returns the save
call's error), so the fall-through does not unconditionally succeed with
the freshly probed metadata. -/
theorem c7_counterexample :
    (fun _ : List Nat => (none : Option ProbeMediaData)) [7] = none ∧
    fetchMetadata (.ok mdW) (.error "unused") = .ok mdW ∧
    (loadMetadata cfgC (.ok [7]) (fun _ => none) (fun _ => .ok [3, 1])
      (fun _ _ => .error "write failed") (.ok mdW) (.error "unused")).result =
      .error "write failed" :=
  ⟨rfl, rfl, rfl⟩

/-- C7 amended: with caching enabled, a cache read that succeeds but fails
to unmarshal falls through to a fresh probe and — provided serialization
and the cache write-back succeed — returns the freshly probed metadata,
the write-back going to the global backend when a shared cache directory
is configured, otherwise to the local backend; a cache read failing with
`os.ErrNotExist` takes the same re-probe path without logging a cache
error.  A failing serialization or write-back is instead returned as
`loadMetadata`'s own error although the probe succeeded. -/
theorem c7_cache_fallback (cfg : Config) (data bytes : List Nat)
    (unmarshal : List Nat → Option ProbeMediaData)
    (marshal : ProbeMediaData → Except String (List Nat))
    (save : CacheTarget → List Nat → Except String Unit)
    (pm : Except String ProbeMediaData) (pv : Except String (List ℚ)) (md : ProbeMediaData)
    (hc : cfg.Cache = true) (hu : unmarshal data = none)
    (hf : fetchMetadata pm pv = .ok md)
    (hm : marshal md = .ok bytes)
    (hs : save (if cfg.CacheDir ≠ "" then .globalCache else .localCache) bytes = .ok ()) :
    loadMetadata cfg (.ok data) unmarshal marshal save pm pv =
      { result := .ok md
        cacheWrite := some
          ((if cfg.CacheDir ≠ "" then .globalCache else .localCache), bytes)
        loggedCacheError := true } ∧
    loadMetadata cfg (.error .notExist) unmarshal marshal save pm pv =
      { result := .ok md
        cacheWrite := some
          ((if cfg.CacheDir ≠ "" then .globalCache else .localCache), bytes)
        loggedCacheError := false } := by
  have hs' : save (if cfg.CacheDir = "" then CacheTarget.localCache else CacheTarget.globalCache)
      bytes = .ok () := by simpa using hs
  constructor <;> simp [loadMetadata, refetchAndCache, hc, hu, hf, hm, hs']

/-- Witness for C7: caching enabled, a corrupt entry (unmarshal yields
nothing), a succeeding probe, marshal and write-back succeeding; the load
returns the fresh metadata. -/
theorem c7_witness :
    cfgC.Cache = true ∧
    (fun _ : List Nat => (none : Option ProbeMediaData)) [7] = none ∧
    fetchMetadata (.ok mdW) (.error "unused") = .ok mdW ∧
    (fun _ : ProbeMediaData => (.ok [3, 1] : Except String (List Nat))) mdW = .ok [3, 1] ∧
    (loadMetadata cfgC (.ok [7]) (fun _ => none) (fun _ => .ok [3, 1])
      (fun _ _ => .ok ()) (.ok mdW) (.error "unused")).result = .ok mdW := by
  refine ⟨rfl, rfl, rfl, rfl, ?_⟩
  rw [(c7_cache_fallback cfgC [7] [3, 1] (fun _ => none) (fun _ => .ok [3, 1])
    (fun _ _ => .ok ()) (.ok mdW) (.error "unused") mdW rfl rfl rfl rfl rfl).1]

/-- C8: the playlist endpoint answers 200 with the playlist when ready or
becoming ready within the wait, 504 when the bounded readiness wait times
out, and 500 both when the readiness event fires with `ready` still false
(failed initialization) and when the shutdown signal fires first. -/
theorem c8_ServePlaylist_statuses (m0 m1 : ManagerCtx) (g : GateOutcome) :
    (m0.ready = true → ServePlaylist m0 g m1 = { status := 200, body := m0.playlist }) ∧
    (m0.ready = false → g = .readyChange → m1.ready = true →
      ServePlaylist m0 g m1 = { status := 200, body := m1.playlist }) ∧
    (m0.ready = false → g = .timedOut → (ServePlaylist m0 g m1).status = 504) ∧
    (m0.ready = false → g = .readyChange → m1.ready = false →
      (ServePlaylist m0 g m1).status = 500) ∧
    (m0.ready = false → g = .shutdownFired → (ServePlaylist m0 g m1).status = 500) := by
  refine ⟨fun h => by simp [ServePlaylist, h],
    fun h hg h1 => by subst hg; simp [ServePlaylist, h, h1],
    fun h hg => by subst hg; simp [ServePlaylist, h],
    fun h hg h1 => by subst hg; simp [ServePlaylist, h, h1],
    fun h hg => by subst hg; simp [ServePlaylist, h]⟩

/-- Witness for C8: a fresh (never-ready) manager whose wait times out
receives status 504. -/
theorem c8_witness :
    (New cfgP).ready = false ∧
    (ServePlaylist (New cfgP) .timedOut (New cfgP)).status = 504 :=
  ⟨rfl, (c8_ServePlaylist_statuses (New cfgP) (New cfgP) .timedOut).2.2.1 rfl rfl⟩

/-- C9: playlist generation is deterministic and side-effect-free — it is a
pure function of the segment boundary times, the nominal duration and the
configured prefix, so two managers agreeing on those three yield
byte-identical playlist text. -/
theorem c9_getPlaylist_deterministic (m1 m2 : ManagerCtx)
    (hp : m1.config.SegmentPrefix = m2.config.SegmentPrefix)
    (hd : m1.segmentDuration = m2.segmentDuration)
    (ht : m1.segmentsTimes = m2.segmentsTimes) :
    getPlaylist m1 = getPlaylist m2 := by
  rw [getPlaylist, getPlaylist, hp, hd, ht]

/-- Witness for C9: two managers differing in readiness, playlist and
metadata but agreeing on the planner inputs produce equal text. -/
theorem c9_witness :
    stA.config.SegmentPrefix = stB.config.SegmentPrefix ∧
    stA.segmentDuration = stB.segmentDuration ∧
    stA.segmentsTimes = stB.segmentsTimes ∧
    getPlaylist stA = getPlaylist stB :=
  ⟨rfl, rfl, rfl, c9_getPlaylist_deterministic stA stB rfl rfl rfl⟩

/-- C10 (code bug): after initialization on keyframes `[0, 4.8, 9.6, 14.4]`
the segment table holds indices 1..3, all unavailable, yet a request for an
unavailable segment invokes no transcode executor (the handler has only a
TODO there, and its hardcoded index 0 misses the table): every request —
however many run — observes 404 and zero executor invocations, not exactly
one invocation. -/
theorem c10_no_executor_invocation :
    st10.segments = [(1, false), (2, false), (3, false)] ∧
    ServeMedia st10 true =
      { status := 404, body := "404 index not found", servedPath := none,
        invokedExecutor := false } := by
  exact ⟨rfl, rfl⟩
